import Mathlib

/-!
Verification of the CSV-to-Dashboard app (src/app.py, src/test1.2.py): a
shallow embedding of its column-type inference, column classification,
count group-by, chart request builder, and session pipeline, plus the
filter/sum-aggregation components described only in the specification.

Tables are column-oriented: a list of named columns, each column a list of
optional scalar values (a dataframe column of dtype number, datetime or
object). Date parsing (pandas to_datetime) is abstracted as a function
String to Option Nat; the charting library (plotly express) is abstracted
as a fallible renderer from chart calls to figures.
-/

/-- A scalar cell value of a dataframe, tagged by dtype. -/
inductive Cell where
  | num (n : Int)
  | dt (t : Nat)
  | str (s : String)
deriving DecidableEq

/-- One dataframe column: its dtype and its values, missing entries included
(NaN, NaT or None in pandas). -/
inductive Column where
  | numeric (vals : List (Option Int))
  | datetime (vals : List (Option Nat))
  | text (vals : List (Option String))
deriving DecidableEq

/-- A dataframe: named columns in order. -/
abbrev Table := List (String × Column)

/-- The number of rows a column holds. -/
def colLength : Column → Nat
  | .numeric vs => vs.length
  | .datetime vs => vs.length
  | .text vs => vs.length

/-- A column's values as dtype-tagged cells. -/
def Column.cells : Column → List (Option Cell)
  | .numeric vs => vs.map (Option.map Cell.num)
  | .datetime vs => vs.map (Option.map Cell.dt)
  | .text vs => vs.map (Option.map Cell.str)

/-- pandas to_datetime applied to one object column (src/app.py lines 39-42):
missing values become missing timestamps, each string must parse, and the
first unparseable string fails the whole column (the exception pandas
raises). -/
def tryParseAll (parse : String → Option Nat) : List (Option String) → Option (List (Option Nat))
  | [] => some []
  | none :: rest => (tryParseAll parse rest).map (fun ds => none :: ds)
  | some s :: rest =>
    match parse s with
    | none => none
    | some t => (tryParseAll parse rest).map (fun ds => some t :: ds)

/-- The inference step for one column (src/app.py lines 37-42): only object
columns are touched; they become datetime when every value parses, and are
left as they were when pandas raises. -/
def inferColumn (parse : String → Option Nat) : Column → Column
  | .text vs =>
    match tryParseAll parse vs with
    | some ds => .datetime ds
    | none => .text vs
  | c => c

/-- The column type inference loop over the whole table (src/app.py lines 37-42). -/
def inferTypes (parse : String → Option Nat) (t : Table) : Table :=
  t.map (fun p => (p.1, inferColumn parse p.2))

/-- select_dtypes(include="number") membership test. -/
def isNumericCol : Column → Bool
  | .numeric _ => true
  | _ => false

/-- select_dtypes(include="datetime") membership test. -/
def isDatetimeCol : Column → Bool
  | .datetime _ => true
  | _ => false

/-- numeric_cols of src/app.py line 44. -/
def numeric_cols (t : Table) : List String :=
  (t.filter (fun p => isNumericCol p.2)).map Prod.fst

/-- datetime_cols of src/app.py line 45. -/
def datetime_cols (t : Table) : List String :=
  (t.filter (fun p => isDatetimeCol p.2)).map Prod.fst

/-- categorical_cols of src/app.py line 46: select_dtypes excluding number
and datetime. -/
def categorical_cols (t : Table) : List String :=
  (t.filter (fun p => !isNumericCol p.2 && !isDatetimeCol p.2)).map Prod.fst

/-- The per-session state the script builds after a successful load:
the (type-inferred) dataframe and the three classification lists. -/
structure SessionState where
  df : Table
  numericCols : List String
  datetimeCols : List String
  categoricalCols : List String
deriving DecidableEq

/-- Building the session from a successfully read dataframe
(src/app.py lines 32-46). -/
def mkSession (parse : String → Option Nat) (raw : Table) : SessionState :=
  let df := inferTypes parse raw
  { df := df
    numericCols := numeric_cols df
    datetimeCols := datetime_cols df
    categoricalCols := categorical_cols df }

/-- What a session run reaches: the load error screen (st.error then st.stop),
or a ready dashboard over the loaded table. -/
inductive LoadOutcome where
  | loadError (msg : String)
  | ready (st : SessionState)
deriving DecidableEq

/-- The top of the script (src/app.py lines 26-46): pd.read_csv in a
try/except whose error branch reports and stops, the success branch building
the session. The CSV reader itself is external; its outcome is the
Except-valued argument. -/
def runSession (parse : String → Option Nat) (loadResult : Except String Table) : LoadOutcome :=
  match loadResult with
  | .error e => .loadError ("Error loading file:\n" ++ e)
  | .ok raw => .ready (mkSession parse raw)

/-- Correspondence of one text cell with one parsed datetime cell: missing
stays missing and a string must actually parse to the stored timestamp. -/
def ParsesTo (parse : String → Option Nat) : Option String → Option Nat → Prop
  | none, d => d = none
  | some s, d => ∃ t, parse s = some t ∧ d = some t

theorem tryParseAll_sound (parse : String → Option Nat) :
    ∀ (vals : List (Option String)) (ds : List (Option Nat)),
      tryParseAll parse vals = some ds → List.Forall₂ (ParsesTo parse) vals ds := by
  intro vals
  induction vals with
  | nil =>
    intro ds h
    simp [tryParseAll] at h
    simp [← h]
  | cons v rest ih =>
    intro ds h
    cases v with
    | none =>
      simp only [tryParseAll, Option.map_eq_some'] at h
      obtain ⟨ds', hds', rfl⟩ := h
      exact List.Forall₂.cons rfl (ih ds' hds')
    | some s =>
      simp only [tryParseAll] at h
      cases hp : parse s with
      | none => simp [hp] at h
      | some t =>
        simp only [hp, Option.map_eq_some'] at h
        obtain ⟨ds', hds', rfl⟩ := h
        exact List.Forall₂.cons ⟨t, hp, rfl⟩ (ih ds' hds')

theorem tryParseAll_fails (parse : String → Option Nat) :
    ∀ vals : List (Option String), tryParseAll parse vals = none →
      ∃ s, some s ∈ vals ∧ parse s = none := by
  intro vals
  induction vals with
  | nil => intro h; simp [tryParseAll] at h
  | cons v rest ih =>
    intro h
    cases v with
    | none =>
      simp only [tryParseAll, Option.map_eq_none'] at h
      obtain ⟨s, hs, hps⟩ := ih h
      exact ⟨s, List.mem_cons_of_mem _ hs, hps⟩
    | some s =>
      simp only [tryParseAll] at h
      cases hp : parse s with
      | none => exact ⟨s, List.mem_cons_self _ _, hp⟩
      | some t =>
        simp only [hp, Option.map_eq_none'] at h
        obtain ⟨u, hu, hpu⟩ := ih h
        exact ⟨u, List.mem_cons_of_mem _ hu, hpu⟩

/-- C1: type inference is all-or-nothing per text column: either every value
parses (or is missing) and the column is reclassified as datetime pointwise,
or some value fails to parse and the column is returned exactly as it was. -/
theorem inferColumn_allOrNothing (parse : String → Option Nat) (vals : List (Option String)) :
    (∃ ds, inferColumn parse (Column.text vals) = Column.datetime ds ∧
      List.Forall₂ (ParsesTo parse) vals ds) ∨
    (inferColumn parse (Column.text vals) = Column.text vals ∧
      ∃ s, some s ∈ vals ∧ parse s = none) := by
  cases h : tryParseAll parse vals with
  | none =>
    right
    constructor
    · simp [inferColumn, h]
    · exact tryParseAll_fails parse vals h
  | some ds =>
    left
    exact ⟨ds, by simp [inferColumn, h], tryParseAll_sound parse vals ds h⟩

theorem numeric_cols_cons (p : String × Column) (rest : Table) :
    numeric_cols (p :: rest) =
      if isNumericCol p.2 then p.1 :: numeric_cols rest else numeric_cols rest := by
  simp only [numeric_cols, List.filter_cons]
  split <;> simp

theorem datetime_cols_cons (p : String × Column) (rest : Table) :
    datetime_cols (p :: rest) =
      if isDatetimeCol p.2 then p.1 :: datetime_cols rest else datetime_cols rest := by
  simp only [datetime_cols, List.filter_cons]
  split <;> simp

theorem categorical_cols_cons (p : String × Column) (rest : Table) :
    categorical_cols (p :: rest) =
      if !isNumericCol p.2 && !isDatetimeCol p.2 then p.1 :: categorical_cols rest
      else categorical_cols rest := by
  simp only [categorical_cols, List.filter_cons]
  split <;> simp

theorem cols_partition_aux :
    ∀ t : Table,
      List.Perm (numeric_cols t ++ datetime_cols t ++ categorical_cols t) (t.map Prod.fst) := by
  intro t
  induction t with
  | nil => simp [numeric_cols, datetime_cols, categorical_cols]
  | cons p rest ih =>
    obtain ⟨nm, c⟩ := p
    cases c with
    | numeric vs =>
      simp only [numeric_cols_cons, datetime_cols_cons, categorical_cols_cons,
        isNumericCol, isDatetimeCol, Bool.not_true, Bool.not_false, Bool.false_and,
        Bool.and_false, if_true, if_false, ite_true, ite_false, List.cons_append,
        List.map_cons]
      exact List.Perm.cons nm ih
    | datetime vs =>
      simp only [numeric_cols_cons, datetime_cols_cons, categorical_cols_cons,
        isNumericCol, isDatetimeCol, Bool.not_true, Bool.not_false, Bool.false_and,
        Bool.and_false, if_true, if_false, ite_true, ite_false, List.map_cons,
        List.append_assoc, List.cons_append]
      exact List.Perm.trans List.perm_middle
        (List.Perm.cons nm (by simpa [List.append_assoc] using ih))
    | text vs =>
      simp only [numeric_cols_cons, datetime_cols_cons, categorical_cols_cons,
        isNumericCol, isDatetimeCol, Bool.not_true, Bool.not_false, Bool.and_self,
        if_true, if_false, ite_true, ite_false, List.map_cons, List.append_assoc,
        List.cons_append]
      rw [← List.append_assoc]
      exact List.Perm.trans List.perm_middle
        (List.Perm.cons nm (by simpa [List.append_assoc] using ih))

/-- C5: after type inference the classification is a partition: the three
name lists numeric/datetime/categorical together enumerate every column of
the inferred table exactly once, and each single column satisfies exactly
one of the three class tests. -/
theorem classification_partition (parse : String → Option Nat) (t : Table) :
    List.Perm
      (numeric_cols (inferTypes parse t) ++ datetime_cols (inferTypes parse t) ++
        categorical_cols (inferTypes parse t))
      ((inferTypes parse t).map Prod.fst) ∧
    ∀ c : Column,
      ((if isNumericCol c then 1 else 0) + (if isDatetimeCol c then 1 else 0) +
        (if !isNumericCol c && !isDatetimeCol c then 1 else 0)) = 1 := by
  refine ⟨cols_partition_aux (inferTypes parse t), ?_⟩
  intro c
  cases c <;> rfl

theorem colLength_inferColumn (parse : String → Option Nat) (c : Column) :
    colLength (inferColumn parse c) = colLength c := by
  cases c with
  | numeric vs => rfl
  | datetime vs => rfl
  | text vs =>
    cases h : tryParseAll parse vs with
    | none => simp [inferColumn, h]
    | some ds =>
      simp only [inferColumn, h, colLength]
      exact ((tryParseAll_sound parse vs ds h).length_eq).symm

/-- C10: the inference pass is a frame: column names, order and count are
unchanged, every column keeps its row count, and a column that is already
numeric or datetime is returned exactly as it was. -/
theorem inference_frame (parse : String → Option Nat) (t : Table) :
    ((inferTypes parse t).map Prod.fst = t.map Prod.fst) ∧
    List.Forall₂
      (fun p q : String × Column =>
        q.1 = p.1 ∧ colLength q.2 = colLength p.2 ∧
          ((isNumericCol p.2 || isDatetimeCol p.2) = true → q = p))
      t (inferTypes parse t) := by
  constructor
  · simp [inferTypes, List.map_map]
  · induction t with
    | nil => exact List.Forall₂.nil
    | cons p rest ih =>
      refine List.Forall₂.cons ⟨rfl, colLength_inferColumn parse p.2, ?_⟩ ih
      intro hdt
      obtain ⟨nm, c⟩ := p
      cases c with
      | numeric vs => rfl
      | datetime vs => rfl
      | text vs => simp [isNumericCol, isDatetimeCol] at hdt

/-- C6: a failed load reaches only the load-error outcome, carrying the
reported message and no table, while a successful load reaches the ready
dashboard built from the fully loaded table: no partial ingestion exists. -/
theorem loadError_halts (parse : String → Option Nat) (e : String) :
    runSession parse (Except.error e) = LoadOutcome.loadError ("Error loading file:\n" ++ e) ∧
    ∀ raw : Table, runSession parse (Except.ok raw) = LoadOutcome.ready (mkSession parse raw) :=
  ⟨rfl, fun _ => rfl⟩

/-- The key order pandas groupby uses when sorting groups: within one dtype
the natural order (cross-dtype comparisons never arise inside one column). -/
def Cell.le : Cell → Cell → Bool
  | .num a, .num b => a ≤ b
  | .dt a, .dt b => a ≤ b
  | .str a, .str b => a ≤ b
  | .num _, _ => true
  | .dt _, .num _ => false
  | .dt _, _ => true
  | .str _, _ => false

/-- Cell.le as a decidable relation for sorting. -/
def cellLe (a b : Cell) : Prop := Cell.le a b = true

instance : DecidableRel cellLe := fun a b => instDecidableEqBool (Cell.le a b) true

/-- df.groupby(x).size() of src/app.py line 149: rows whose key is missing
are dropped (pandas groupby default), one group per distinct remaining key,
groups sorted by key, each with its row count. -/
def groupbySize (keys : List (Option Cell)) : List (Cell × Nat) :=
  let ks := keys.filterMap id
  (List.insertionSort cellLe ks.dedup).map (fun k => (k, ks.count k))

/-- The spec's predicted row count for count aggregation (spec section 8):
one row per distinct group-by value plus one group for missing, if any
missing values exist. Stated from the spec's words, for comparison with
groupbySize. -/
def specCountRows (keys : List (Option Cell)) : Nat :=
  (keys.filterMap id).dedup.length + (if none ∈ keys then 1 else 0)

/-- C2 counterexample: on a column with one present value and one missing
value the code yields a single group row, while the claim (missing values
form their own group) predicts two. -/
theorem groupbySize_missing_cex :
    (groupbySize [some (Cell.str "A"), none]).length = 1 ∧
    specCountRows [some (Cell.str "A"), none] = 2 := by decide

/-- C2 (amended): count aggregation emits exactly one row per distinct
non-missing value of the grouping column: the output length is the number
of distinct non-missing values, the emitted keys repeat no value, and a key
is emitted exactly when it occurs in the column; rows with a missing
grouping value are dropped, never grouped. -/
theorem groupbySize_rows (keys : List (Option Cell)) :
    (groupbySize keys).length = (keys.filterMap id).dedup.length ∧
    ((groupbySize keys).map Prod.fst).Nodup ∧
    ∀ k : Cell, (k ∈ (groupbySize keys).map Prod.fst ↔ some k ∈ keys) := by
  have hfst : (groupbySize keys).map Prod.fst =
      List.insertionSort cellLe (keys.filterMap id).dedup := by
    show (List.map (fun k => (k, (keys.filterMap id).count k))
        (List.insertionSort cellLe (keys.filterMap id).dedup)).map Prod.fst =
      List.insertionSort cellLe (keys.filterMap id).dedup
    rw [List.map_map]
    exact List.map_id _
  have hperm : List.Perm (List.insertionSort cellLe (keys.filterMap id).dedup)
      (keys.filterMap id).dedup := List.perm_insertionSort cellLe _
  refine ⟨?_, ?_, ?_⟩
  · simp [groupbySize, List.length_insertionSort]
  · rw [hfst]
    exact hperm.nodup_iff.mpr (List.nodup_dedup _)
  · intro k
    rw [hfst]
    constructor
    · intro hk
      have : k ∈ keys.filterMap id := List.mem_dedup.mp (hperm.mem_iff.mp hk)
      obtain ⟨a, ha, hak⟩ := List.mem_filterMap.mp this
      cases a with
      | none => simp at hak
      | some b => simpa [← hak] using ha
    · intro hk
      refine hperm.mem_iff.mpr (List.mem_dedup.mpr (List.mem_filterMap.mpr ⟨some k, hk, rfl⟩))

/-- Rebuilding a dataframe column from grouped keys (reset_index of the
groupby result): the dtype follows the keys, which within one grouping
column all share one variant. -/
def Column.ofCells (cs : List Cell) : Column :=
  match cs.head? with
  | some (Cell.num _) => .numeric (cs.map (fun c => match c with | .num n => some n | _ => none))
  | some (Cell.dt _) => .datetime (cs.map (fun c => match c with | .dt t => some t | _ => none))
  | _ => .text (cs.map (fun c => match c with | .str s => some s | _ => none))

/-- grouped = df.groupby(x_axis).size().reset_index(name='count') of
src/app.py line 149: a two-column table of the group keys and their counts. -/
def countedTable (x : String) (c : Column) : Table :=
  let g := groupbySize c.cells
  [(x, Column.ofCells (g.map Prod.fst)),
   ("count", Column.numeric (g.map (fun p => some (Int.ofNat p.2))))]

/-- The chart kinds the sidebar offers (src/app.py lines 57-60). -/
inductive ChartType where
  | line
  | bar
  | scatter
  | pie
deriving DecidableEq

/-- The aggregate-function choice (src/app.py line 64). -/
inductive AggChoice where
  | noAgg
  | count
deriving DecidableEq

/-- A call into the external charting collaborator (plotly express): which
plotting function, the dataframe handed over, the axis selections and the
title, exactly as src/app.py lines 150-180 pass them. -/
inductive ChartCall where
  | line (data : Table) (x : String) (y : Option String) (title : String)
  | bar (data : Table) (x : String) (y : Option String) (title : String)
  | scatter (data : Table) (x : String) (y : Option String) (title : String)
  | pie (data : Table) (names : String) (values : Option String) (title : String)
deriving DecidableEq

/-- A figure the external renderer returned for a call. -/
structure Fig where
  call : ChartCall
deriving DecidableEq

/-- How Python renders the y-axis selection into an f-string title:
None prints as the word None. -/
def showOptCol : Option String → String
  | none => "None"
  | some s => s

/-- Column lookup by name, as indexing a dataframe by column label. -/
def findCol (df : Table) (x : String) : Option Column :=
  (df.find? (fun p => p.1 == x)).map Prod.snd

/-- The error message of src/app.py line 166. -/
def countMsg : String := "Count aggregation only supported for Bar and Scatter charts."

/-- The body of the try block of the Generate Chart handler (src/app.py
lines 147-180). The result is an exception (Except.error, raised by the
groupby on a missing column or by the abstract renderer px), or a built
figure (Sum.inl), or the inline count-compatibility error message shown
with no figure built (Sum.inr, lines 165-167). -/
def buildFigInner (px : ChartCall → Except String Fig) (chartType : ChartType)
    (agg : AggChoice) (x : String) (y : Option String) (df : Table) :
    Except String (Sum Fig String) :=
  match agg with
  | .count =>
    match findCol df x with
    | none => .error ("KeyError: " ++ x)
    | some c =>
      let grouped := countedTable x c
      match chartType with
      | .bar => (px (.bar grouped x (some "count") ("Count of records by " ++ x))).map .inl
      | .scatter =>
        (px (.scatter grouped x (some "count") ("Count of records by " ++ x))).map .inl
      | _ => .ok (.inr countMsg)
  | .noAgg =>
    let call : ChartCall :=
      match chartType with
      | .line => .line df x y ("Line of " ++ showOptCol y ++ " vs " ++ x)
      | .bar => .bar df x y ("Bar of " ++ showOptCol y ++ " vs " ++ x)
      | .scatter => .scatter df x y ("Scatter of " ++ showOptCol y ++ " vs " ++ x)
      | .pie => .pie df x y ("Pie of " ++ showOptCol y)
    (px call).map .inl

/-- What the user sees from one Generate Chart click: a rendered figure, or
one error message (st.error), never a propagated exception. -/
inductive ChartOutcome where
  | plotted (f : Fig)
  | errorShown (msg : String)
deriving DecidableEq

/-- The whole Generate Chart handler (src/app.py lines 146-184): the try
body, its inline error path, and the except branch that catches every
exception and shows a localized message. -/
def generateChart (px : ChartCall → Except String Fig) (chartType : ChartType)
    (agg : AggChoice) (x : String) (y : Option String) (df : Table) : ChartOutcome :=
  match buildFigInner px chartType agg x y df with
  | .error e => .errorShown ("Could not generate chart: " ++ e)
  | .ok (.inl f) => .plotted f
  | .ok (.inr m) => .errorShown m

/-- One Generate Chart interaction against the session: the handler only
reads the session's dataframe; it assigns nothing back to the session. -/
def chartStep (px : ChartCall → Except String Fig) (chartType : ChartType)
    (agg : AggChoice) (x : String) (y : Option String) (st : SessionState) :
    SessionState × ChartOutcome :=
  (st, generateChart px chartType agg x y st.df)

/-- C3: with Count aggregation a Line or Pie request is rejected with the
descriptive inline error and nothing is plotted, whatever the renderer
does; a Bar or Scatter request plots the figure the renderer returns for
the grouped count table. -/
theorem count_agg_chart_guard (px : ChartCall → Except String Fig) (x : String)
    (y : Option String) (df : Table) (c : Column) (h : findCol df x = some c) :
    generateChart px ChartType.line AggChoice.count x y df = ChartOutcome.errorShown countMsg ∧
    generateChart px ChartType.pie AggChoice.count x y df = ChartOutcome.errorShown countMsg ∧
    (∀ f : Fig,
      px (ChartCall.bar (countedTable x c) x (some "count") ("Count of records by " ++ x)) =
        Except.ok f →
      generateChart px ChartType.bar AggChoice.count x y df = ChartOutcome.plotted f) ∧
    (∀ f : Fig,
      px (ChartCall.scatter (countedTable x c) x (some "count") ("Count of records by " ++ x)) =
        Except.ok f →
      generateChart px ChartType.scatter AggChoice.count x y df = ChartOutcome.plotted f) := by
  refine ⟨?_, ?_, ?_, ?_⟩
  · simp [generateChart, buildFigInner, h]
  · simp [generateChart, buildFigInner, h]
  · intro f hf
    simp [generateChart, buildFigInner, h, hf, Except.map]
  · intro f hf
    simp [generateChart, buildFigInner, h, hf, Except.map]

/-- The always-succeeding renderer: every chart call yields its figure. -/
def pxOk : ChartCall → Except String Fig := fun c => Except.ok ⟨c⟩

/-- A loaded demo table with one categorical column. -/
def demoDf : Table := [("provider", Column.text [some "A", some "A", some "B"])]

/-- Witness for C3 at a concrete renderer, table and column. -/
theorem count_agg_chart_guard_witness :
    generateChart pxOk ChartType.line AggChoice.count "provider" none demoDf =
      ChartOutcome.errorShown countMsg :=
  (count_agg_chart_guard pxOk "provider" none demoDf
    (Column.text [some "A", some "A", some "B"]) (by decide)).1

/-- A loaded table with no numeric column, the situation in which the Pie
value selectbox over numeric_cols leaves no y selected. -/
def dfNoNumeric : Table := [("provider", Column.text [some "A", some "B", some "B"])]

/-- C4 counterexample: a Pie request with no y selected is not rejected: the
builder hands px.pie the table with values=None and the rendered pie is
shown, with the title Pie of None. -/
theorem pie_no_y_cex :
    generateChart pxOk ChartType.pie AggChoice.noAgg "provider" none dfNoNumeric =
      ChartOutcome.plotted
        (Fig.mk (ChartCall.pie dfNoNumeric "provider" none "Pie of None")) := by decide

/-- C4 (amended): for a Pie request in which no y (slice-magnitude) column is
selected, the builder reports no configuration error: it issues a pie call
with no values column (titled Pie of None) to the renderer, and whatever
figure the renderer returns for it is plotted. -/
theorem pie_no_y_renders (px : ChartCall → Except String Fig) (x : String) (df : Table)
    (f : Fig) (h : px (ChartCall.pie df x none "Pie of None") = Except.ok f) :
    generateChart px ChartType.pie AggChoice.noAgg x none df = ChartOutcome.plotted f := by
  have htitle : "Pie of " ++ showOptCol none = "Pie of None" := rfl
  simp [generateChart, buildFigInner, htitle, h, Except.map]

/-- Witness for C4's amended theorem at a concrete renderer and table. -/
theorem pie_no_y_renders_witness :
    generateChart pxOk ChartType.pie AggChoice.noAgg "provider" none demoDf =
      ChartOutcome.plotted (Fig.mk (ChartCall.pie demoDf "provider" none "Pie of None")) :=
  pie_no_y_renders pxOk "provider" demoDf
    (Fig.mk (ChartCall.pie demoDf "provider" none "Pie of None")) rfl

/-- C7: the Generate Chart step keeps the session state identical (the
loaded table and its classification are read, never reassigned), and every
exception the try body raises, the renderer's included, is caught and
surfaced as the localized Could-not-generate-chart message: the outcome is
always a plotted figure or a shown message. -/
theorem chartStep_preserves_session (px : ChartCall → Except String Fig)
    (chartType : ChartType) (agg : AggChoice) (x : String) (y : Option String)
    (st : SessionState) :
    (chartStep px chartType agg x y st).1 = st ∧
    (∀ e : String, buildFigInner px chartType agg x y st.df = Except.error e →
      (chartStep px chartType agg x y st).2 =
        ChartOutcome.errorShown ("Could not generate chart: " ++ e)) := by
  refine ⟨rfl, ?_⟩
  intro e h
  simp [chartStep, generateChart, h]

/-- Modelled from the spec: the Filter Pipeline's date-range step (spec
section 4.2) has no implementation under src/, so its row mask is taken from
the spec's words: a row passes when its value on the designated datetime
column is present and start <= value <= end inclusive; a missing timestamp
never satisfies the inclusive range test. -/
def dateRangeMask (a b : Nat) (keys : List (Option Nat)) : List Bool :=
  keys.map (fun k =>
    match k with
    | none => false
    | some v => decide (a ≤ v) && decide (v ≤ b))

/-- Keeping the entries of a list selected by a row mask, in order. -/
def maskList (mask : List Bool) (l : List α) : List α :=
  (l.zip mask).filterMap (fun p => if p.2 then some p.1 else none)

/-- Restricting one column to the rows a mask selects. -/
def maskColumn (mask : List Bool) : Column → Column
  | .numeric vs => .numeric (maskList mask vs)
  | .datetime vs => .datetime (maskList mask vs)
  | .text vs => .text (maskList mask vs)

/-- Restricting every column of a table to the rows a mask selects. -/
def maskTable (mask : List Bool) (t : Table) : Table :=
  t.map (fun p => (p.1, maskColumn mask p.2))

/-- Modelled from the spec: the date-range filter (spec section 4.2) over a
table, keyed by the designated datetime column's values. -/
def dateRangeFilter (a b : Nat) (keys : List (Option Nat)) (t : Table) : Table :=
  maskTable (dateRangeMask a b keys) t

/-- Modelled from the spec: the default start bound, the column's minimum
over its present values (spec section 4.2). -/
def minKey : List (Option Nat) → Option Nat
  | [] => none
  | none :: rest => minKey rest
  | some v :: rest =>
    match minKey rest with
    | none => some v
    | some w => some (min v w)

/-- Modelled from the spec: the default end bound, the column's maximum over
its present values (spec section 4.2). -/
def maxKey : List (Option Nat) → Option Nat
  | [] => none
  | none :: rest => maxKey rest
  | some v :: rest =>
    match maxKey rest with
    | none => some v
    | some w => some (max v w)

/-- The number of rows of a table (every column shares it). -/
def numRows (t : Table) : Nat :=
  (t.head?.map (fun p => colLength p.2)).getD 0

theorem minKey_eq_none :
    ∀ keys : List (Option Nat), minKey keys = none → ∀ v : Nat, some v ∉ keys := by
  intro keys
  induction keys with
  | nil => intro _ v hv; simp at hv
  | cons k rest ih =>
    intro h v hv
    cases k with
    | none =>
      simp only [minKey] at h
      rcases List.mem_cons.mp hv with hh | hh
      · exact absurd hh (by simp)
      · exact ih h v hh
    | some u =>
      simp only [minKey] at h
      cases hr : minKey rest with
      | none => rw [hr] at h; simp at h
      | some w => rw [hr] at h; simp at h

theorem minKey_le :
    ∀ (keys : List (Option Nat)) (a v : Nat), minKey keys = some a → some v ∈ keys → a ≤ v := by
  intro keys
  induction keys with
  | nil => intro a v _ hv; simp at hv
  | cons k rest ih =>
    intro a v ha hv
    cases k with
    | none =>
      simp only [minKey] at ha
      rcases List.mem_cons.mp hv with hh | hh
      · exact absurd hh (by simp)
      · exact ih a v ha hh
    | some u =>
      simp only [minKey] at ha
      cases hr : minKey rest with
      | none =>
        rw [hr] at ha
        simp only [Option.some.injEq] at ha
        rcases List.mem_cons.mp hv with hh | hh
        · simp only [Option.some.injEq] at hh
          omega
        · exact absurd hh (minKey_eq_none rest hr v)
      | some w =>
        rw [hr] at ha
        simp only [Option.some.injEq] at ha
        rcases List.mem_cons.mp hv with hh | hh
        · simp only [Option.some.injEq] at hh
          subst hh
          omega
        · have hw := ih w v hr hh
          omega

theorem maxKey_eq_none :
    ∀ keys : List (Option Nat), maxKey keys = none → ∀ v : Nat, some v ∉ keys := by
  intro keys
  induction keys with
  | nil => intro _ v hv; simp at hv
  | cons k rest ih =>
    intro h v hv
    cases k with
    | none =>
      simp only [maxKey] at h
      rcases List.mem_cons.mp hv with hh | hh
      · exact absurd hh (by simp)
      · exact ih h v hh
    | some u =>
      simp only [maxKey] at h
      cases hr : maxKey rest with
      | none => rw [hr] at h; simp at h
      | some w => rw [hr] at h; simp at h

theorem le_maxKey :
    ∀ (keys : List (Option Nat)) (b v : Nat), maxKey keys = some b → some v ∈ keys → v ≤ b := by
  intro keys
  induction keys with
  | nil => intro b v _ hv; simp at hv
  | cons k rest ih =>
    intro b v hb hv
    cases k with
    | none =>
      simp only [maxKey] at hb
      rcases List.mem_cons.mp hv with hh | hh
      · exact absurd hh (by simp)
      · exact ih b v hb hh
    | some u =>
      simp only [maxKey] at hb
      cases hr : maxKey rest with
      | none =>
        rw [hr] at hb
        simp only [Option.some.injEq] at hb
        rcases List.mem_cons.mp hv with hh | hh
        · simp only [Option.some.injEq] at hh
          omega
        · exact absurd hh (maxKey_eq_none rest hr v)
      | some w =>
        rw [hr] at hb
        simp only [Option.some.injEq] at hb
        rcases List.mem_cons.mp hv with hh | hh
        · simp only [Option.some.injEq] at hh
          subst hh
          omega
        · have hw := ih w v hr hh
          omega

theorem maskList_all_true : ∀ l : List α, maskList (List.replicate l.length true) l = l := by
  intro l
  induction l with
  | nil => rfl
  | cons a rest ih =>
    simp only [List.length_cons, List.replicate, maskList, List.zip_cons_cons,
      List.filterMap_cons, if_true]
    simpa [maskList] using ih

theorem maskColumn_all_true (c : Column) :
    maskColumn (List.replicate (colLength c) true) c = c := by
  cases c <;> simp [maskColumn, colLength, maskList_all_true]

theorem maskTable_all_true :
    ∀ (t : Table) (n : Nat), (∀ p ∈ t, colLength p.2 = n) →
      maskTable (List.replicate n true) t = t := by
  intro t
  induction t with
  | nil => intro n _; rfl
  | cons p rest ih =>
    intro n hlen
    obtain ⟨nm, c⟩ := p
    have hp : colLength c = n := hlen (nm, c) (List.mem_cons_self _ _)
    have hhead : maskColumn (List.replicate n true) c = c := by
      rw [← hp]; exact maskColumn_all_true c
    have htail : maskTable (List.replicate n true) rest = rest :=
      ih n (fun q hq => hlen q (List.mem_cons_of_mem _ hq))
    simp only [maskTable, List.map_cons] at htail ⊢
    rw [hhead, htail]

theorem dateRangeMask_all_true :
    ∀ (keys : List (Option Nat)) (a b : Nat),
      (∀ k ∈ keys, ∃ v, k = some v ∧ a ≤ v ∧ v ≤ b) →
      dateRangeMask a b keys = List.replicate keys.length true := by
  intro keys a b
  induction keys with
  | nil => intro _; rfl
  | cons k rest ih =>
    intro h
    obtain ⟨v, rfl, hav, hvb⟩ := h k (List.mem_cons_self _ _)
    have hhead : (decide (a ≤ v) && decide (v ≤ b)) = true := by simp [hav, hvb]
    have htail := ih (fun q hq => h q (List.mem_cons_of_mem _ hq))
    simp only [dateRangeMask, List.map_cons] at htail ⊢
    rw [List.length_cons, List.replicate_succ, hhead, htail]

/-- The table of the C8 counterexample: its datetime column has a present
value and a missing value. -/
def missingDateTable : Table :=
  [("date", Column.datetime [some 5, none]), ("cost", Column.numeric [some 10, some 20])]

/-- The datetime column values the C8 counterexample filters on. -/
def missingDateKeys : List (Option Nat) := [some 5, none]

/-- C8 counterexample: on a table whose datetime column holds a missing
value, filtering by the default bounds (the column's own minimum 5 and
maximum 5) drops the missing-valued row: the result has one row where the
input had two, so the filter at the full observed range is not the
identity. -/
theorem dateRange_identity_cex :
    minKey missingDateKeys = some 5 ∧ maxKey missingDateKeys = some 5 ∧
    dateRangeFilter 5 5 missingDateKeys missingDateTable =
      [("date", Column.datetime [some 5]), ("cost", Column.numeric [some 10])] ∧
    numRows missingDateTable = 2 ∧
    numRows (dateRangeFilter 5 5 missingDateKeys missingDateTable) = 1 := by decide

/-- C8 (amended): for a table whose designated datetime column has no
missing values, filtering by the default bounds, the column's minimum and
maximum, returns the table unchanged: every row is retained in the original
order. Rows with a missing value on the column are dropped by the range
test, so the identity holds exactly on missing-free columns. -/
theorem dateRange_full_range_identity (keys : List (Option Nat)) (t : Table) (a b : Nat)
    (hmin : minKey keys = some a) (hmax : maxKey keys = some b)
    (hnomiss : ∀ k ∈ keys, k.isSome = true)
    (hlen : ∀ p ∈ t, colLength p.2 = keys.length) :
    dateRangeFilter a b keys t = t := by
  have hmask : dateRangeMask a b keys = List.replicate keys.length true := by
    refine dateRangeMask_all_true keys a b ?_
    intro k hk
    obtain ⟨v, rfl⟩ := Option.isSome_iff_exists.mp (hnomiss k hk)
    exact ⟨v, rfl, minKey_le keys a v hmin hk, le_maxKey keys b v hmax hk⟩
  rw [dateRangeFilter, hmask]
  exact maskTable_all_true t keys.length hlen

/-- The missing-free table of the C8 witness. -/
def fullDateTable : Table :=
  [("date", Column.datetime [some 3, some 7]), ("cost", Column.numeric [some 1, some 2])]

/-- The datetime column values of the C8 witness. -/
def fullDateKeys : List (Option Nat) := [some 3, some 7]

/-- Witness for C8's amended theorem at a concrete missing-free table. -/
theorem dateRange_full_range_identity_witness :
    dateRangeFilter 3 7 fullDateKeys fullDateTable = fullDateTable :=
  dateRange_full_range_identity fullDateKeys fullDateTable 3 7 (by decide) (by decide)
    (by decide) (by decide)

/-- Descending comparison on aggregate values, a defined aggregate ranking
above a missing one. -/
def aggGe : Option Int → Option Int → Bool
  | some a, some b => b ≤ a
  | some _, none => true
  | none, some _ => false
  | none, none => true

/-- aggGe on summary rows as a decidable relation for the descending sort. -/
def aggRowGe (p q : Option Cell × Option Int) : Prop := aggGe p.2 q.2 = true

instance : DecidableRel aggRowGe := fun p q => instDecidableEqBool (aggGe p.2 q.2) true

/-- Modelled from the spec: the Aggregator's sum mode (spec section 4.3) has
no implementation under src/. Following the spec's words: group rows by the
distinct values of the grouping column, sum the target column over each
group ignoring missing target values, a group whose every target value is
missing yielding a missing aggregate rather than zero, and order the result
rows by descending aggregate value (the spend/summary display ordering). -/
def sumAggregate (keys : List (Option Cell)) (targets : List (Option Int)) :
    List (Option Cell × Option Int) :=
  let pairs := keys.zip targets
  let rows := keys.dedup.map (fun k =>
    let vs := (pairs.filter (fun p => p.1 == k)).filterMap Prod.snd
    (k, if vs.isEmpty then (none : Option Int) else some (vs.foldl (fun acc n => acc + n) 0)))
  List.insertionSort aggRowGe rows

/-- The concrete CSV table of the C9 scenario, after load and inference:
columns id, provider, cost, date with the three given rows. -/
def demoCsvTable : Table :=
  [("id", Column.numeric [some 1, some 2, some 3]),
   ("provider", Column.text [some "A", some "A", some "B"]),
   ("cost", Column.numeric [some 10, some 20, some 5]),
   ("date", Column.datetime [some 0, some 1, some 2])]

/-- The provider column's cells in the C9 scenario. -/
def demoProviderCells : List (Option Cell) :=
  [some (Cell.str "A"), some (Cell.str "A"), some (Cell.str "B")]

/-- The cost column's values in the C9 scenario. -/
def demoCostVals : List (Option Int) := [some 10, some 20, some 5]

/-- C9: on the concrete id/provider/cost/date table, grouping by provider
with mode sum on cost yields A mapped to 30 and B mapped to 5, ordered by
descending aggregate. -/
theorem sum_by_provider_demo :
    ((findCol demoCsvTable "provider").map Column.cells) = some demoProviderCells ∧
    ((findCol demoCsvTable "cost").map Column.cells) =
      some (demoCostVals.map (Option.map Cell.num)) ∧
    sumAggregate demoProviderCells demoCostVals =
      [(some (Cell.str "A"), some 30), (some (Cell.str "B"), some 5)] := by decide
